import Mathlib

/-!
Verification of the recovery tool core against its C sources.

The development shallowly embeds the two source files:

* `src/mtdutils/flash_image.c` — the raw-partition image writer
  (`flash_image`, with `body_written` the partition state after the
  body-write session of step 4 and `skip_check` the step-3 equality gate);
* `src/recovery.c` — argument resolution (`get_args`), completion
  (`finish_recovery`) and the wipe/install dispatch of `main`
  (`parseFlags`, `session_execute`).

Bytes are modelled as `Nat`, C strings as `List Char` (the content up to
the first NUL byte), partitions and image files as `List Nat`.  Fallible
operations return `Option`; `none` models a fatal `die`/crash of the
process.  The bootloader control block record is declared in a header
that is not part of the sources, so it is modelled from the spec (see
`ControlBlock`).
-/

/-! ## Partition flasher (src/mtdutils/flash_image.c) -/

/-- HEADER_SIZE from flash_image.c line 29: size of header compared for
equality. -/
def HEADER_SIZE : Nat := 2048

/-- Overwrite the bytes of `l` starting at offset `off` with `d`,
modelling sequential `mtd_write_data` calls of one write session that
has advanced to `off + d.length`.  Callers check that the write fits. -/
def writeAt (l : List Nat) (off : Nat) (d : List Nat) : List Nat :=
  l.take off ++ d ++ l.drop (off + d.length)

/-- Partition state after the step-4 session of flash_image.c lines
124-136 committed: `headerlen` zero bytes (the placeholder written
instead of the real header) followed by the image body, the remainder
of the partition untouched. -/
def body_written (img ptn : List Nat) : List Nat :=
  let headerlen := min HEADER_SIZE img.length
  writeAt ptn 0 (List.replicate headerlen 0 ++ img.drop headerlen)

/-- Step-3 gate of flash_image.c lines 104-114: the partition read
yielded as many bytes as the image header read and the bytes agree
(`checklen == headerlen && !memcmp(header, check, headerlen)`;
`checklen <= 0` is treated as a failed read, not a match). -/
def skip_check (img ptn : List Nat) : Bool :=
  let headerlen := min HEADER_SIZE img.length
  let checklen := min HEADER_SIZE ptn.length
  decide (checklen ≠ 0 ∧ checklen = headerlen ∧ ptn.take checklen = img.take headerlen)

/-- Outcome of a flash invocation that did not `die`: final partition
contents, total bytes passed to `mtd_write_data`, whether the image
file was unlinked, and the process exit code. -/
structure FlashOut where
  ptn : List Nat
  written : Nat
  deleted : Bool
  exitCode : Nat
deriving DecidableEq

/-- The flashing routine of flash_image.c `main`, lines 92-169, after
argument parsing: read the first HEADER_SIZE bytes of the image, skip
everything when the step-3 gate matches, otherwise write a zero
placeholder plus the body (session one), then the real header plus the
remainder of the first block copied from the image (session two).
`readFails` models `mtd_read_partition`/`mtd_read_data` failing (lines
100-108: "just assume it needs re-writing").  `none` models `die`;
a zero `blockSize` would make the `while (left < 0)` loop at line 155
diverge and is mapped to `none` as well. -/
def flash_image (deleteImage : Bool) (img ptn : List Nat) (blockSize : Nat)
    (readFails : Bool) : Option FlashOut :=
  let headerlen := min HEADER_SIZE img.length
  if headerlen = 0 then none
  else
    if readFails = false ∧ skip_check img ptn = true then
      some ⟨ptn, 0, deleteImage, 0⟩
    else
      if img.length ≤ ptn.length then
        let ptn1 := body_written img ptn
        if blockSize = 0 then none
        else
          let left := (blockSize - headerlen % blockSize) % blockSize
          if headerlen + left ≤ img.length then
            let ptn2 := writeAt ptn1 0 (img.take headerlen ++ (img.drop headerlen).take left)
            some ⟨ptn2, img.length + headerlen + left, deleteImage, 0⟩
          else none
      else none

/-! ## Argument resolution (src/recovery.c, get_args) -/

/-- MAX_ARG_LENGTH from recovery.c line 119: size of the `fgets` buffer
in the command-file branch. -/
def MAX_ARG_LENGTH : Nat := 4096

/-- MAX_ARGS from recovery.c line 120: capacity of the resolved argv
(program name included). -/
def MAX_ARGS : Nat := 100

/-- Modelled from the spec: the bootloader control block record declared
in bootloader.h, which is not among the sources.  Three fixed-capacity
text fields, `command`, `status` and `recovery`; each is modelled as its
content up to the first NUL byte, so the all-zeroes record is
`⟨[], [], []⟩`.  The spec fixes no numeric widths ("short fixed
capacity" / "larger fixed capacity"), so the capacities are parameters
`cmdCap`/`recCap` of the operations below. -/
structure ControlBlock where
  command : List Char
  status : List Char
  recovery : List Char
deriving DecidableEq

/-- Modelled from the spec: ControlBlockChannel.set overwrites the
entire record held by the reserved device region. -/
def set_bootloader_message (b : ControlBlock) (_dev : ControlBlock) : ControlBlock := b

/-- Modelled from the spec: ControlBlockChannel.get is a best-effort
read; `fail` selects the I/O-error outcome, in which no record is
produced (the caller of `get_bootloader_message` keeps its zeroed
struct). -/
def read_bootloader_message (fail : Bool) (dev : ControlBlock) : Option ControlBlock :=
  if fail then none else some dev

/-- strlcpy(dst, src, cap): the destination holds at most cap-1
characters of the source. -/
def scpy (cap : Nat) (src : List Char) : List Char := src.take (cap - 1)

/-- strlcat(dst, src, cap) for a destination that already holds at most
cap-1 characters (the only way it is used in get_args): append and
truncate to cap-1 characters. -/
def scat (cap : Nat) (dst src : List Char) : List Char := (dst ++ src).take (cap - 1)

/-- Delimiter set "\n" of the strtok calls on boot.recovery
(recovery.c lines 175-180). -/
def isNL (c : Char) : Bool := c = '\n'

/-- Delimiter set "\r\n" of the strtok call on a command-file line
(recovery.c line 200). -/
def isCRLF (c : Char) : Bool := c = '\r' || c = '\n'

/-- All tokens a strtok loop extracts: the maximal nonempty runs of
non-delimiter characters. -/
def strtokAll (ds : Char → Bool) (s : List Char) : List (List Char) :=
  (List.splitOnP ds s).filter (fun t => !t.isEmpty)

/-- strtok(buf, ds) called once on a fresh buffer: skip leading
delimiters; NULL (`none`) when nothing remains, otherwise the first
token. -/
def strtokFirst (ds : Char → Bool) (s : List Char) : Option (List Char) :=
  let t := s.dropWhile ds
  if t.isEmpty then none else some (t.takeWhile (fun x => !ds x))

/-- Take at most `n` characters from the stream, stopping after a
newline — the reading core of fgets. -/
def fgetsTake : Nat → List Char → List Char × List Char
  | 0, s => ([], s)
  | _ + 1, [] => ([], [])
  | n + 1, c :: rest =>
    if c = '\n' then ([c], rest)
    else
      let p := fgetsTake n rest
      (c :: p.1, p.2)

/-- fgets(buf, cap, fp): NULL (`none`) at end of file, otherwise up to
cap-1 characters, stopping after a newline. -/
def fgets (cap : Nat) (s : List Char) : Option (List Char × List Char) :=
  match s with
  | [] => none
  | c :: rest => some (fgetsTake (cap - 1) (c :: rest))

/-- The command-file loop of recovery.c lines 198-201: up to MAX_ARGS-1
iterations of fgets / strtok / strdup.  `strdup(strtok(buf, "\r\n"))`
has no NULL check, so a buffer holding only CR/LF characters crashes
the process: `none`. -/
def cmd_file_args : Nat → List Char → Option (List (List Char))
  | 0, _ => some []
  | n + 1, s =>
    match fgets MAX_ARG_LENGTH s with
    | none => some []
    | some (buf, rest) =>
      match strtokFirst isCRLF buf with
      | none => none
      | some tok => (cmd_file_args n rest).map (fun ts => tok :: ts)

/-- The arguments joined one per line, each terminated by a newline —
the untruncated content the write-back loop builds. -/
def joinNL : List (List Char) → List Char
  | [] => []
  | a :: r => a ++ '\n' :: joinNL r

/-- The strlcpy/strlcat sequence of recovery.c lines 211-216 building
boot.recovery: "recovery\n", then per resolved argument the argument
and a newline, all capped at the recovery field capacity. -/
def build_recovery (recCap : Nat) (rest : List (List Char)) : List Char :=
  rest.foldl (fun acc a => scat recCap (scat recCap acc a) [ '\n' ]) (scpy recCap ("recovery\n".data))

/-- The unconditional write-back of recovery.c lines 210-217:
command := "boot-recovery", recovery := "recovery\n" plus each resolved
argument on its own line; the status field keeps whatever was read. -/
def write_back (cmdCap recCap : Nat) (boot : ControlBlock) (args : List (List Char)) : ControlBlock :=
  { boot with
    command := scpy cmdCap ("boot-recovery".data),
    recovery := build_recovery recCap (args.drop 1) }

/-- Argument resolution of recovery.c lines 172-206.  `p` is the
process argv (program name first).  When `p` has no real arguments, the
strtok walk of boot.recovery must yield first token "recovery" for its
remaining tokens (at most MAX_ARGS-1) to become the argv — in that case
argv[0] becomes the strdup of "recovery" (line 178); otherwise the
command file is read (`none` result models the strdup(NULL) crash). -/
def resolve_args (recCap : Nat) (boot : ControlBlock) (cmdFile : Option (List Char))
    (p : List (List Char)) : Option (List (List Char)) :=
  let args1 :=
    if 1 < p.length then p
    else
      match strtokAll isNL (boot.recovery.take (recCap - 1)) with
      | [] => p
      | t :: rest =>
        if t = ("recovery".data) then ("recovery".data) :: rest.take (MAX_ARGS - 1) else p
  if 1 < args1.length then some args1
  else
    match cmdFile with
    | none => some args1
    | some content =>
      (cmd_file_args (MAX_ARGS - 1) content).map (fun ts => args1.headD [] :: ts)

/-- Resolved argv together with the control block content written back
by set_bootloader_message at the end of get_args. -/
structure GetArgsResult where
  args : List (List Char)
  boot : ControlBlock
deriving DecidableEq

/-- get_args of recovery.c lines 158-218: read the control block
best-effort (`bcbRead = none` models the failed read that leaves the
zeroed struct of line 161), resolve the arguments by precedence, then
unconditionally write the block back.  `none` models the
strdup(NULL) crash of the command-file branch. -/
def get_args (cmdCap recCap : Nat) (bcbRead : Option ControlBlock)
    (cmdFile : Option (List Char)) (p : List (List Char)) : Option GetArgsResult :=
  let boot := bcbRead.getD ⟨[], [], []⟩
  (resolve_args recCap boot cmdFile p).map (fun args => ⟨args, write_back cmdCap recCap boot args⟩)

/-- Concrete resolution outcome used by the round-trip witness: no
arguments from any source, program name "p". -/
def sampleResolution : GetArgsResult :=
  ⟨[[ 'p' ]], ⟨("boot-recovery".data), [], ("recovery\n".data)⟩⟩

/-! ## Completion (src/recovery.c, finish_recovery) -/

/-- errno value for a missing file, tolerated by the unlink at
recovery.c line 267. -/
def ENOENT : Nat := 2

/-- The durable state finish_recovery touches: the intent file, the
persistent log, the transient log with the static read cursor
tmplog_offset (recovery.c line 248), the control block, and whether the
command file exists. -/
structure RecState where
  intentFile : Option (List Char)
  plog : List Char
  tmplog : List Char
  tmplogOffset : Nat
  bcb : ControlBlock
  cmdFilePresent : Bool
deriving DecidableEq

/-- finish_recovery of recovery.c lines 225-272: write the intent if
requested, append the unread tail of the transient log to the
persistent log and advance the cursor, zero the control block, unlink
the command file treating ENOENT as success (line 267), sync.  The
returned Bool is the "Can not unlink" warning
(`unlink(path) && errno != ENOENT`); the file opens themselves are
modelled as succeeding. -/
def finish_recovery (send_intent : Option (List Char)) (s : RecState) : RecState × Bool :=
  let s1 := match send_intent with
    | some i => { s with intentFile := some i }
    | none => s
  let s2 := { s1 with
    plog := s1.plog ++ s1.tmplog.drop s1.tmplogOffset,
    tmplogOffset := s1.tmplog.length }
  let s3 := { s2 with bcb := (⟨[], [], []⟩ : ControlBlock) }
  let unlinkErr : Option Nat := if s3.cmdFilePresent then none else some ENOENT
  let s4 := { s3 with cmdFilePresent := false }
  let warn : Bool := match unlinkErr with
    | some e => decide (e ≠ ENOENT)
    | none => false
  (s4, warn)

/-! ## Session dispatch (src/recovery.c, main) -/

/-- The flags main accumulates from getopt_long (recovery.c lines
1466-1482).  Argument-taking options are modelled in their
`--option=value` form. -/
structure Flags where
  send_intent : Option (List Char)
  update_package : Option (List Char)
  wipe_data : Bool
  wipe_cache : Bool
deriving DecidableEq

/-- All options start unset (recovery.c lines 1466-1468). -/
def initFlags : Flags := ⟨none, none, false, false⟩

/-- One getopt_long step: case 'w' sets BOTH wipe_data and wipe_cache
(line 1476), case 'c' sets only wipe_cache (line 1477), 's'/'u' record
their argument, anything unknown is logged and skipped (case '?',
line 1479). -/
def applyOpt (f : Flags) (a : List Char) : Flags :=
  if a = ("--wipe_data".data) then { f with wipe_data := true, wipe_cache := true }
  else if a = ("--wipe_cache".data) then { f with wipe_cache := true }
  else if ("--update_package=".data).isPrefixOf a then
    { f with update_package := some (a.drop 17) }
  else if ("--send_intent=".data).isPrefixOf a then
    { f with send_intent := some (a.drop 14) }
  else f

/-- The getopt_long loop over the resolved arguments. -/
def parseFlags (args : List (List Char)) : Flags := args.foldl applyOpt initFlags

/-- INSTALL_SUCCESS / INSTALL_ERROR as seen by main. -/
inductive SessionStatus
  | success
  | error
deriving DecidableEq

/-- Root name of the user-data filesystem. -/
def dataRoot : List Char := "DATA:".data

/-- Root name of the cache filesystem. -/
def cacheRoot : List Char := "CACHE:".data

/-- The action dispatch of recovery.c lines 1504-1513: an update
package wins, else the wipe branch (`erase_root("DATA:")` then
`erase_root("CACHE:")`, each guarded by its own flag, the cache erase
attempted even when the data erase failed), else "no command
specified" is an Error.  Returns the erased roots in call order and the
resulting status; `installOk`/`eraseOk` model the external install and
format collaborators. -/
def session_execute (f : Flags) (installOk : List Char → Bool) (eraseOk : List Char → Bool) :
    List (List Char) × SessionStatus :=
  match f.update_package with
  | some pkg => ([], if installOk pkg then .success else .error)
  | none =>
    if f.wipe_data || f.wipe_cache then
      let calls := (if f.wipe_data then [dataRoot] else []) ++
        (if f.wipe_cache then [cacheRoot] else [])
      let err := (f.wipe_data && !eraseOk dataRoot) || (f.wipe_cache && !eraseOk cacheRoot)
      (calls, if err then .error else .success)
    else ([], .error)

/-! ## Helper lemmas -/

lemma body_written_eq (img ptn : List Nat) :
    body_written img ptn =
      List.replicate (min HEADER_SIZE img.length) 0 ++
        (img.drop (min HEADER_SIZE img.length) ++ ptn.drop img.length) := by
  have h : min HEADER_SIZE img.length + (img.length - min HEADER_SIZE img.length)
      = img.length := by
    have := Nat.min_le_right HEADER_SIZE img.length
    omega
  simp only [body_written, writeAt, List.take_zero, List.nil_append, Nat.zero_add,
    List.length_append, List.length_replicate, List.length_drop, List.append_assoc, h]

lemma skip_check_iff (img ptn : List Nat) :
    skip_check img ptn = true ↔
      min HEADER_SIZE ptn.length ≠ 0 ∧
      min HEADER_SIZE ptn.length = min HEADER_SIZE img.length ∧
      ptn.take (min HEADER_SIZE ptn.length) = img.take (min HEADER_SIZE img.length) := by
  simp only [skip_check, decide_eq_true_eq]

lemma replicate_header_ne (a b : Nat) (hab : a ≠ b) :
    List.replicate HEADER_SIZE a ≠ List.replicate HEADER_SIZE b := by
  intro h
  rw [show HEADER_SIZE = 2047 + 1 from rfl, List.replicate_succ, List.replicate_succ] at h
  injection h with h1 _
  exact hab h1

lemma bw_allzero :
    body_written (List.replicate 4096 0) (List.replicate 4096 1) = List.replicate 4096 0 := by
  rw [body_written_eq]
  rw [List.length_replicate, List.drop_replicate, List.drop_replicate]
  norm_num [HEADER_SIZE]

lemma flash_content (img ptn : List Nat) (L : Nat)
    (h1 : HEADER_SIZE ≤ img.length)
    (hL : HEADER_SIZE + L ≤ img.length) :
    (writeAt (body_written img ptn) 0
        (img.take HEADER_SIZE ++ (img.drop HEADER_SIZE).take L)).take img.length = img := by
  have hmi : min HEADER_SIZE img.length = HEADER_SIZE := Nat.min_eq_left h1
  have hlen : (img.take HEADER_SIZE ++ (img.drop HEADER_SIZE).take L).length
      = HEADER_SIZE + L := by
    simp only [List.length_append, List.length_take, List.length_drop]
    omega
  rw [writeAt, List.take_zero, List.nil_append, Nat.zero_add, hlen,
    body_written_eq, hmi]
  have hdrop : (List.replicate HEADER_SIZE (0:Nat) ++
      (img.drop HEADER_SIZE ++ ptn.drop img.length)).drop (HEADER_SIZE + L)
      = img.drop (HEADER_SIZE + L) ++ ptn.drop img.length := by
    rw [List.drop_append_eq_append_drop, List.length_replicate, List.drop_replicate,
      List.drop_append_eq_append_drop, List.length_drop]
    have e1 : HEADER_SIZE + L - HEADER_SIZE = L := by omega
    have e2 : HEADER_SIZE - (HEADER_SIZE + L) = 0 := by omega
    have e3 : L - (img.length - HEADER_SIZE) = 0 := by omega
    rw [e1, e2, e3, List.drop_zero, List.replicate_zero, List.nil_append,
      List.drop_drop]
  rw [hdrop]
  have hta : img.take HEADER_SIZE ++ (img.drop HEADER_SIZE).take L
      = img.take (HEADER_SIZE + L) := (List.take_add img HEADER_SIZE L).symm
  rw [hta, ← List.append_assoc, List.take_append_drop]
  rw [List.take_append_eq_append_take, List.take_length, Nat.sub_self, List.take_zero,
    List.append_nil]

lemma flash_full_path_reachable :
    (flash_image false (List.replicate HEADER_SIZE 1) (List.replicate HEADER_SIZE 0)
      HEADER_SIZE false).isSome = true := by
  have hlen1 : (List.replicate HEADER_SIZE (1:Nat)).length = HEADER_SIZE := List.length_replicate ..
  have hlen0 : (List.replicate HEADER_SIZE (0:Nat)).length = HEADER_SIZE := List.length_replicate ..
  have hmi : min HEADER_SIZE (List.replicate HEADER_SIZE (1:Nat)).length = HEADER_SIZE := by
    rw [hlen1, Nat.min_self]
  have hne0 : ¬(HEADER_SIZE = 0) := by norm_num [HEADER_SIZE]
  have hskF : skip_check (List.replicate HEADER_SIZE 1) (List.replicate HEADER_SIZE 0) = false := by
    rcases Bool.eq_false_or_eq_true
        (skip_check (List.replicate HEADER_SIZE 1) (List.replicate HEADER_SIZE 0)) with hb | hb
    · exfalso
      rw [skip_check_iff, hlen0, hlen1, Nat.min_self] at hb
      obtain ⟨-, -, heq⟩ := hb
      rw [List.take_replicate, List.take_replicate, Nat.min_self] at heq
      exact replicate_header_ne 0 1 (by norm_num) heq
    · exact hb
  have hsk : ¬(True ∧ skip_check (List.replicate HEADER_SIZE 1) (List.replicate HEADER_SIZE 0) = true) := by
    rintro ⟨-, hs⟩
    rw [hskF] at hs
    cases hs
  simp only [flash_image]
  rw [hmi, if_neg hne0, if_neg hsk, if_pos (by rw [hlen1, hlen0]),
    if_neg hne0]
  have hleft : (HEADER_SIZE - HEADER_SIZE % HEADER_SIZE) % HEADER_SIZE = 0 := by
    rw [Nat.mod_self, Nat.sub_zero, Nat.mod_self]
  rw [hleft]
  rw [if_pos (by rw [hlen1]; omega)]
  rfl

/-! ## Claim theorems: partition flasher -/

/-- Claim C1, counterexample.  The claim quantifies over every image,
including one whose first H bytes are all zero; for such an image the
zero placeholder left by an interrupted body write IS equal to the
image header, so the skip check of a later invocation succeeds and the
partition first-H-bytes DO equal the image first H bytes. -/
theorem interrupted_allzero_header_counterexample :
    skip_check (List.replicate 4096 0)
        (body_written (List.replicate 4096 0) (List.replicate 4096 1)) = true ∧
    (body_written (List.replicate 4096 0) (List.replicate 4096 1)).take HEADER_SIZE
      = (List.replicate 4096 0).take HEADER_SIZE := by
  rw [bw_allzero, skip_check_iff]
  refine ⟨⟨?_, rfl, rfl⟩, rfl⟩
  rw [List.length_replicate]
  norm_num [HEADER_SIZE]

/-- Claim C1, amended: for every image with at least H bytes whose
first H bytes are NOT all zero, halting after the body write of step 4
leaves the partition first H bytes (the zero placeholder) different
from the image first H bytes, so the skip check of step 3 cannot
succeed on a retry. -/
theorem interrupted_write_detection_amended (img ptn : List Nat)
    (h1 : HEADER_SIZE ≤ img.length)
    (h2 : img.take HEADER_SIZE ≠ List.replicate HEADER_SIZE 0) :
    (body_written img ptn).take HEADER_SIZE ≠ img.take HEADER_SIZE ∧
    skip_check img (body_written img ptn) = false := by
  have hmi : min HEADER_SIZE img.length = HEADER_SIZE := Nat.min_eq_left h1
  have htake : (body_written img ptn).take HEADER_SIZE = List.replicate HEADER_SIZE 0 := by
    rw [body_written_eq, hmi, List.take_append_eq_append_take, List.length_replicate,
      Nat.sub_self, List.take_zero, List.append_nil, List.take_replicate, Nat.min_self]
  constructor
  · rw [htake]
    exact fun hc => h2 hc.symm
  · rcases Bool.eq_false_or_eq_true (skip_check img (body_written img ptn)) with hb | hb
    swap
    · exact hb
    · exfalso
      rw [skip_check_iff, hmi] at hb
      obtain ⟨-, hcl, heq⟩ := hb
      rw [hcl, htake] at heq
      exact h2 heq.symm

/-- Witness for the amended C1 theorem at a concrete image of 2048 one
bytes and a partition of 2048 five bytes. -/
theorem interrupted_write_detection_amended_witness :
    (HEADER_SIZE ≤ (List.replicate HEADER_SIZE 1).length ∧
      (List.replicate HEADER_SIZE 1).take HEADER_SIZE ≠ List.replicate HEADER_SIZE 0) ∧
    ((body_written (List.replicate HEADER_SIZE 1) (List.replicate HEADER_SIZE 5)).take HEADER_SIZE
        ≠ (List.replicate HEADER_SIZE 1).take HEADER_SIZE ∧
      skip_check (List.replicate HEADER_SIZE 1)
        (body_written (List.replicate HEADER_SIZE 1) (List.replicate HEADER_SIZE 5)) = false) := by
  have h1 : HEADER_SIZE ≤ (List.replicate HEADER_SIZE 1).length := by
    rw [List.length_replicate]
  have h2 : (List.replicate HEADER_SIZE 1).take HEADER_SIZE ≠ List.replicate HEADER_SIZE 0 := by
    rw [List.take_replicate, Nat.min_self]
    exact replicate_header_ne 1 0 (by norm_num)
  exact ⟨⟨h1, h2⟩, interrupted_write_detection_amended _ _ h1 h2⟩

/-- Claim C4: when the partition read yields exactly H bytes equal to
the image first H bytes, the flasher performs zero writes, leaves the
partition unchanged, exits 0, and deletes the image exactly when -d was
passed. -/
theorem flash_skip_no_writes (d : Bool) (img ptn : List Nat) (bs : Nat)
    (h1 : HEADER_SIZE ≤ ptn.length) (h2 : HEADER_SIZE ≤ img.length)
    (h3 : ptn.take HEADER_SIZE = img.take HEADER_SIZE) :
    flash_image d img ptn bs false = some ⟨ptn, 0, d, 0⟩ := by
  have hmi : min HEADER_SIZE img.length = HEADER_SIZE := Nat.min_eq_left h2
  have hmp : min HEADER_SIZE ptn.length = HEADER_SIZE := Nat.min_eq_left h1
  have hsk : skip_check img ptn = true := by
    rw [skip_check_iff, hmp, hmi]
    refine ⟨?_, rfl, h3⟩
    norm_num [HEADER_SIZE]
  have hne0 : ¬(HEADER_SIZE = 0) := by norm_num [HEADER_SIZE]
  simp only [flash_image]
  rw [hmi, if_neg hne0, if_pos (show True ∧ skip_check img ptn = true from ⟨trivial, hsk⟩)]

/-- Witness for C4 at a partition already holding the 2048-byte image
of sevens, with -d passed: zero writes, deletion reported. -/
theorem flash_skip_no_writes_witness :
    (HEADER_SIZE ≤ (List.replicate HEADER_SIZE 7).length ∧
      (List.replicate HEADER_SIZE 7).take HEADER_SIZE
        = (List.replicate HEADER_SIZE 7).take HEADER_SIZE) ∧
    flash_image true (List.replicate HEADER_SIZE 7) (List.replicate HEADER_SIZE 7) 131072 false
      = some ⟨List.replicate HEADER_SIZE 7, 0, true, 0⟩ := by
  have h1 : HEADER_SIZE ≤ (List.replicate HEADER_SIZE 7).length := by
    rw [List.length_replicate]
  exact ⟨⟨h1, rfl⟩, flash_skip_no_writes true _ _ 131072 h1 h1 rfl⟩

/-- Claim C5: on a partition whose first H bytes differ from the image
header, any successful flash leaves every partition byte up to the
image length equal to the corresponding image byte (header from step 5,
first-block padding from step 6, body from step 4). -/
theorem flash_success_content (d rf : Bool) (img ptn : List Nat) (bs : Nat)
    (h1 : HEADER_SIZE ≤ img.length)
    (h2 : ptn.take HEADER_SIZE ≠ img.take HEADER_SIZE) :
    ∀ r, flash_image d img ptn bs rf = some r → r.ptn.take img.length = img := by
  intro r hr
  have hmi : min HEADER_SIZE img.length = HEADER_SIZE := Nat.min_eq_left h1
  have hne0 : ¬(HEADER_SIZE = 0) := by norm_num [HEADER_SIZE]
  have hsk : ¬(rf = false ∧ skip_check img ptn = true) := by
    rintro ⟨-, hs⟩
    rw [skip_check_iff, hmi] at hs
    obtain ⟨-, hcl, heq⟩ := hs
    rw [hcl] at heq
    exact h2 heq
  simp only [flash_image] at hr
  rw [hmi, if_neg hne0, if_neg hsk] at hr
  by_cases hfit : img.length ≤ ptn.length
  · rw [if_pos hfit] at hr
    by_cases hbs : bs = 0
    · rw [if_pos hbs] at hr; cases hr
    · rw [if_neg hbs] at hr
      by_cases hL : HEADER_SIZE + (bs - HEADER_SIZE % bs) % bs ≤ img.length
      · rw [if_pos hL] at hr
        cases hr
        exact flash_content img ptn _ h1 hL
      · rw [if_neg hL] at hr; cases hr
  · rw [if_neg hfit] at hr; cases hr

/-- Witness for C5 at a 2048-byte image of ones over a partition of
zero bytes (the success path is reachable there, see
flash_full_path_reachable). -/
theorem flash_success_content_witness :
    (HEADER_SIZE ≤ (List.replicate HEADER_SIZE 1).length ∧
      (List.replicate HEADER_SIZE 0).take HEADER_SIZE
        ≠ (List.replicate HEADER_SIZE 1).take HEADER_SIZE) ∧
    (∀ r, flash_image false (List.replicate HEADER_SIZE 1) (List.replicate HEADER_SIZE 0)
        HEADER_SIZE false = some r →
      r.ptn.take (List.replicate HEADER_SIZE 1).length = List.replicate HEADER_SIZE 1) := by
  have h1 : HEADER_SIZE ≤ (List.replicate HEADER_SIZE 1).length := by
    rw [List.length_replicate]
  have h2 : (List.replicate HEADER_SIZE 0).take HEADER_SIZE
      ≠ (List.replicate HEADER_SIZE 1).take HEADER_SIZE := by
    rw [List.take_replicate, List.take_replicate, Nat.min_self]
    exact replicate_header_ne 0 1 (by norm_num)
  exact ⟨⟨h1, h2⟩, flash_success_content false false _ _ HEADER_SIZE h1 h2⟩

/-! ## Helper lemmas: argument resolution -/

lemma take_append_take {α : Type} (k : Nat) (l m : List α) :
    (l.take k ++ m).take k = (l ++ m).take k := by
  rw [List.take_append_eq_append_take, List.take_take, Nat.min_self,
    List.take_append_eq_append_take, List.length_take]
  congr 2
  omega

lemma build_recovery_take (recCap : Nat) (rest : List (List Char)) :
    build_recovery recCap rest = (("recovery\n".data) ++ joinNL rest).take (recCap - 1) := by
  suffices h : ∀ (rs : List (List Char)) (s : List Char),
      rs.foldl (fun acc a => scat recCap (scat recCap acc a) [ '\n' ]) (s.take (recCap - 1))
        = (s ++ joinNL rs).take (recCap - 1) by
    exact h rest ("recovery\n".data)
  intro rs
  induction rs with
  | nil =>
    intro s
    simp only [List.foldl_nil, joinNL, List.append_nil]
  | cons a r ih =>
    intro s
    rw [List.foldl_cons]
    have hstep : scat recCap (scat recCap (s.take (recCap - 1)) a) [ '\n' ]
        = (s ++ a ++ [ '\n' ]).take (recCap - 1) := by
      rw [scat, scat, take_append_take, List.append_assoc, take_append_take,
        ← List.append_assoc]
    rw [hstep]
    have hs := ih (s ++ a ++ [ '\n' ])
    rw [hs]
    simp only [joinNL, List.append_assoc, List.cons_append, List.nil_append]

lemma strtokAll_nil (ds : Char → Bool) : strtokAll ds [] = [] := rfl

lemma get_args_file_branch (cmdCap recCap : Nat) (content : List Char)
    (p : List (List Char)) (hp : ¬ 1 < p.length) :
    get_args cmdCap recCap none (some content) p
      = (cmd_file_args (MAX_ARGS - 1) content).map
          (fun ts => ⟨p.headD [] :: ts, write_back cmdCap recCap ⟨[], [], []⟩ (p.headD [] :: ts)⟩) := by
  simp only [get_args, resolve_args, Option.getD, List.take_nil, strtokAll_nil]
  rw [if_neg hp, if_neg hp, Option.map_map]
  rfl

/-! ## Claim theorems: argument resolution -/

/-- Claim C2: every completed resolution ends by writing the control
block with command "boot-recovery" and recovery "recovery\n" followed by
each resolved argument terminated by a newline, truncated to the field
capacities; reading the block back through the channel returns exactly
what was written. -/
theorem get_args_writeback_roundtrip (cmdCap recCap : Nat) (bcbRead : Option ControlBlock)
    (cmdFile : Option (List Char)) (p : List (List Char)) (dev : ControlBlock)
    (r : GetArgsResult)
    (h : get_args cmdCap recCap bcbRead cmdFile p = some r) :
    r.boot.command = ("boot-recovery".data).take (cmdCap - 1) ∧
    r.boot.recovery = (("recovery\n".data) ++ joinNL (r.args.drop 1)).take (recCap - 1) ∧
    read_bootloader_message false (set_bootloader_message r.boot dev) = some r.boot := by
  simp only [get_args, Option.map_eq_some'] at h
  obtain ⟨args, -, hr⟩ := h
  cases hr
  refine ⟨rfl, ?_, rfl⟩
  exact build_recovery_take recCap _

/-- Witness for C2 at the no-argument resolution with both block and
file absent. -/
theorem get_args_writeback_roundtrip_witness :
    get_args 32 1024 none none [[ 'p' ]] = some sampleResolution ∧
    (sampleResolution.boot.command = ("boot-recovery".data).take (32 - 1) ∧
      sampleResolution.boot.recovery
        = (("recovery\n".data) ++ joinNL (sampleResolution.args.drop 1)).take (1024 - 1) ∧
      read_bootloader_message false
          (set_bootloader_message sampleResolution.boot ⟨[], [], []⟩)
        = some sampleResolution.boot) := by
  have h : get_args 32 1024 none none [[ 'p' ]] = some sampleResolution := by decide
  exact ⟨h, get_args_writeback_roundtrip 32 1024 none none [[ 'p' ]] ⟨[], [], []⟩ sampleResolution h⟩

/-- Claim C3: when the process supplied real arguments (argc greater
than 1), the resolved list is the process list verbatim, whatever the
control block or command file hold. -/
theorem process_args_precedence (cmdCap recCap : Nat) (bcbRead : Option ControlBlock)
    (cmdFile : Option (List Char)) (p : List (List Char)) (h : 1 < p.length) :
    (get_args cmdCap recCap bcbRead cmdFile p).map GetArgsResult.args = some p := by
  simp only [get_args, resolve_args]
  rw [if_pos h, if_pos h]
  rfl

/-- Witness for C3: two process arguments beat a control block with a
valid recovery payload and a command file whose blank line would crash
the file branch. -/
theorem process_args_precedence_witness :
    1 < ([[ 'a' ], [ 'b' ], [ 'c' ]] : List (List Char)).length ∧
    (get_args 32 1024 (some ⟨[], [], ("recovery\nevil".data)⟩) (some [ '\n' ])
        [[ 'a' ], [ 'b' ], [ 'c' ]]).map GetArgsResult.args
      = some [[ 'a' ], [ 'b' ], [ 'c' ]] := by
  have h : 1 < ([[ 'a' ], [ 'b' ], [ 'c' ]] : List (List Char)).length := by decide
  exact ⟨h, process_args_precedence 32 1024 _ _ _ h⟩

/-- Claim C9: a failed control-block read never fails get_args — the
caller proceeds exactly as with the all-zero record, resolution always
completes when no command file exists, and with a command file present
it falls through to the command-file source. -/
theorem bcb_read_failure_recovery (cmdCap recCap : Nat) (cmdFile : Option (List Char))
    (p : List (List Char)) (hp : p.length ≤ 1) :
    get_args cmdCap recCap none cmdFile p
        = get_args cmdCap recCap (some ⟨[], [], []⟩) cmdFile p ∧
    (get_args cmdCap recCap none none p).isSome = true ∧
    ∀ content,
      get_args cmdCap recCap none (some content) p
        = (cmd_file_args (MAX_ARGS - 1) content).map
            (fun ts => ⟨p.headD [] :: ts,
              write_back cmdCap recCap ⟨[], [], []⟩ (p.headD [] :: ts)⟩) := by
  have hnp : ¬ 1 < p.length := by omega
  refine ⟨rfl, ?_, fun content => get_args_file_branch cmdCap recCap content p hnp⟩
  simp only [get_args, resolve_args, Option.getD, List.take_nil, strtokAll_nil]
  rw [if_neg hnp, if_neg hnp]
  rfl

/-- Witness for C9 with program name "p" and a one-line command file. -/
theorem bcb_read_failure_recovery_witness :
    ([[ 'p' ]] : List (List Char)).length ≤ 1 ∧
    (get_args 32 1024 none (some ("x\n".data)) [[ 'p' ]]
        = get_args 32 1024 (some ⟨[], [], []⟩) (some ("x\n".data)) [[ 'p' ]] ∧
      (get_args 32 1024 none none [[ 'p' ]]).isSome = true ∧
      ∀ content,
        get_args 32 1024 none (some content) [[ 'p' ]]
          = (cmd_file_args (MAX_ARGS - 1) content).map
              (fun ts => ⟨([[ 'p' ]] : List (List Char)).headD [] :: ts,
                write_back 32 1024 ⟨[], [], []⟩
                  (([[ 'p' ]] : List (List Char)).headD [] :: ts)⟩)) := by
  have hp : ([[ 'p' ]] : List (List Char)).length ≤ 1 := by decide
  exact ⟨hp, bcb_read_failure_recovery 32 1024 (some ("x\n".data)) [[ 'p' ]] hp⟩

/-- Claim C10: the command-file branch passes strtok output to strdup
without a NULL check, so a command file whose line consists only of a
newline makes strtok return NULL and the process dereference it —
resolution is not total there. -/
theorem cmdfile_blank_line_crash :
    get_args 32 1024 none (some [ '\n' ]) [[ 'p' ]] = none := by decide

/-! ## Helper lemmas: the fgets chunking crash of the command-file
branch -/

lemma fgetsTake_replicate (n : Nat) : ∀ (m : Nat) (rest : List Char), n ≤ m →
    fgetsTake n (List.replicate m 'a' ++ rest)
      = (List.replicate n 'a', List.replicate (m - n) 'a' ++ rest) := by
  induction n with
  | zero =>
    intro m rest _
    rw [List.replicate_zero, Nat.sub_zero]
    rfl
  | succ k ih =>
    intro m rest h
    obtain ⟨m2, rfl⟩ : ∃ m2, m = m2 + 1 := ⟨m - 1, by omega⟩
    rw [List.replicate_succ, List.cons_append]
    simp only [fgetsTake]
    rw [if_neg (show ¬( 'a' = '\n') from by decide)]
    rw [ih m2 rest (by omega)]
    rw [show m2 + 1 - (k + 1) = m2 - k from by omega, List.replicate_succ]

lemma strtokFirst_cons_a (l : List Char) :
    strtokFirst isCRLF ( 'a' :: l) = some (( 'a' :: l).takeWhile (fun x => !isCRLF x)) := by
  simp only [strtokFirst, List.dropWhile_cons]
  rw [if_neg (show ¬(isCRLF 'a' = true) from by decide)]
  rfl

lemma cmd_file_args_step (n : Nat) (s buf rest tok : List Char)
    (hf : fgets MAX_ARG_LENGTH s = some (buf, rest))
    (ht : strtokFirst isCRLF buf = some tok) :
    cmd_file_args (n + 1) s = (cmd_file_args n rest).map (fun ts => tok :: ts) := by
  simp only [cmd_file_args, hf, ht]

lemma cmd_file_args_crashstep (n : Nat) (s buf rest : List Char)
    (hf : fgets MAX_ARG_LENGTH s = some (buf, rest))
    (ht : strtokFirst isCRLF buf = none) :
    cmd_file_args (n + 1) s = none := by
  simp only [cmd_file_args, hf, ht]

lemma fgets_chunk_8190 :
    fgets MAX_ARG_LENGTH (List.replicate 8190 'a' ++ [ '\n' ])
      = some (List.replicate 4095 'a', List.replicate 4095 'a' ++ [ '\n' ]) := by
  have hc : List.replicate 8190 'a' ++ [ '\n' ] = 'a' :: (List.replicate 8189 'a' ++ [ '\n' ]) := by
    rw [show (8190:Nat) = 8189 + 1 from rfl, List.replicate_succ, List.cons_append]
  rw [hc]
  simp only [fgets]
  rw [← List.cons_append, ← List.replicate_succ, show (8189:Nat) + 1 = 8190 from rfl]
  rw [show MAX_ARG_LENGTH - 1 = 4095 from rfl]
  rw [fgetsTake_replicate 4095 8190 [ '\n' ] (by norm_num)]

lemma fgets_chunk_4095 :
    fgets MAX_ARG_LENGTH (List.replicate 4095 'a' ++ [ '\n' ])
      = some (List.replicate 4095 'a', [ '\n' ]) := by
  have hc : List.replicate 4095 'a' ++ [ '\n' ] = 'a' :: (List.replicate 4094 'a' ++ [ '\n' ]) := by
    rw [show (4095:Nat) = 4094 + 1 from rfl, List.replicate_succ, List.cons_append]
  rw [hc]
  simp only [fgets]
  rw [← List.cons_append, ← List.replicate_succ, show (4094:Nat) + 1 = 4095 from rfl]
  rw [show MAX_ARG_LENGTH - 1 = 4095 from rfl]
  rw [fgetsTake_replicate 4095 4095 [ '\n' ] (by norm_num)]
  rw [Nat.sub_self, List.replicate_zero, List.nil_append]

lemma cmd_file_args_longline_crash :
    cmd_file_args (MAX_ARGS - 1) (List.replicate 8190 'a' ++ [ '\n' ]) = none := by
  have hr1 : List.replicate 4095 'a' = 'a' :: List.replicate 4094 'a' := by
    rw [show (4095:Nat) = 4094 + 1 from rfl, List.replicate_succ]
  have ht1 : ∃ t, strtokFirst isCRLF (List.replicate 4095 'a') = some t := by
    rw [hr1]
    exact ⟨_, strtokFirst_cons_a _⟩
  obtain ⟨t1, ht1⟩ := ht1
  have hf3 : fgets MAX_ARG_LENGTH [ '\n' ] = some ([ '\n' ], []) := by decide
  have ht3 : strtokFirst isCRLF [ '\n' ] = none := by decide
  rw [show MAX_ARGS - 1 = 98 + 1 from rfl,
    cmd_file_args_step 98 _ _ _ _ fgets_chunk_8190 ht1,
    show (98:Nat) = 97 + 1 from rfl,
    cmd_file_args_step 97 _ _ _ _ fgets_chunk_4095 ht1,
    show (97:Nat) = 96 + 1 from rfl,
    cmd_file_args_crashstep 96 _ _ _ hf3 ht3]
  rfl

/-- Claim C7, the code bug evaluated: a command file supplying one
argument of 8190 characters (longer than MAX_ARG_LENGTH) is chunked by
fgets into 4095-character reads, leaving a final buffer of just the
newline; strtok returns NULL on it and strdup(NULL) crashes resolution
instead of silently truncating. -/
theorem cmdfile_long_arg_crash :
    MAX_ARG_LENGTH < 8190 ∧
    get_args 32 1024 none (some (List.replicate 8190 'a' ++ [ '\n' ])) [[ 'p' ]] = none := by
  constructor
  · norm_num [MAX_ARG_LENGTH]
  · rw [get_args_file_branch 32 1024 _ _ (by decide)]
    rw [cmd_file_args_longline_crash]
    rfl

/-! ## Claim theorems: completion and session dispatch -/

/-- Claim C6: running finish_recovery twice with no transient-log
growth in between changes nothing the second time — the log cursor
already sits at the end so nothing is re-copied, the control block is
already all-default after the first call, and the second unlink of the
absent command file raises only ENOENT, which is not reported. -/
theorem finish_recovery_idempotent (si : Option (List Char)) (s : RecState) :
    (finish_recovery si (finish_recovery si s).1).1 = (finish_recovery si s).1 ∧
    (finish_recovery si (finish_recovery si s).1).2 = false ∧
    (finish_recovery si s).1.bcb = ⟨[], [], []⟩ := by
  cases si <;> simp [finish_recovery, List.drop_length]

/-- Claim C8, counterexample.  A session invoked with BOTH an update
package and the wipe-data flag takes the install branch of main
(recovery.c line 1504), so the data root is never erased even though
the wipe-data flag is present — the claim as stated quantifies over
every session with the flag. -/
theorem wipe_data_with_update_package_counterexample :
    (parseFlags [("--update_package=CACHE:u.zip".data), ("--wipe_data".data)]).wipe_data = true ∧
    (session_execute (parseFlags [("--update_package=CACHE:u.zip".data), ("--wipe_data".data)])
        (fun _ => true) (fun _ => true)).1 = [] := by
  decide

lemma applyOpt_keeps_wipe (f : Flags) (a : List Char)
    (h1 : f.wipe_data = true) (h2 : f.wipe_cache = true) :
    (applyOpt f a).wipe_data = true ∧ (applyOpt f a).wipe_cache = true := by
  unfold applyOpt
  split_ifs <;> simp_all

lemma parse_sets_wipe (args : List (List Char)) (h : ("--wipe_data".data) ∈ args) :
    (parseFlags args).wipe_data = true ∧ (parseFlags args).wipe_cache = true := by
  suffices H : ∀ (l : List (List Char)) (f : Flags),
      (("--wipe_data".data) ∈ l ∨ (f.wipe_data = true ∧ f.wipe_cache = true)) →
      ((l.foldl applyOpt f).wipe_data = true ∧ (l.foldl applyOpt f).wipe_cache = true) by
    exact H args initFlags (Or.inl h)
  intro l
  induction l with
  | nil =>
    rintro f (hm | hf)
    · cases hm
    · exact hf
  | cons a r ih =>
    rintro f (hm | hf)
    · rcases List.mem_cons.mp hm with heq | hm2
      · rw [List.foldl_cons]
        apply ih
        right
        rw [← heq]
        constructor <;> simp [applyOpt]
      · rw [List.foldl_cons]
        exact ih _ (Or.inl hm2)
    · rw [List.foldl_cons]
      exact ih _ (Or.inr (applyOpt_keeps_wipe f a hf.1 hf.2))

/-- Claim C8, amended: for every session carrying the wipe-data flag
and NO update package, the data root is erased and then the cache root,
in that order (wipe-data implies the cache erase through getopt case
'w' setting both flags); a failed data erase makes the status Error yet
the cache erase is still attempted (it appears in the call list
whatever the erase results are). -/
theorem wipe_data_erase_order_amended (args : List (List Char))
    (io eo : List Char → Bool)
    (h1 : ("--wipe_data".data) ∈ args)
    (h2 : (parseFlags args).update_package = none) :
    (session_execute (parseFlags args) io eo).1 = [dataRoot, cacheRoot] ∧
    (eo dataRoot = false →
      (session_execute (parseFlags args) io eo).2 = SessionStatus.error) := by
  obtain ⟨hwd, hwc⟩ := parse_sets_wipe args h1
  simp only [session_execute, h2, hwd, hwc]
  constructor
  · simp
  · intro he
    simp [he]

/-- Witness for the amended C8 theorem: the one-flag invocation
"--wipe_data" with a failing data-root erase. -/
theorem wipe_data_erase_order_amended_witness :
    (("--wipe_data".data) ∈ [("--wipe_data".data)] ∧
      (parseFlags [("--wipe_data".data)]).update_package = none) ∧
    ((session_execute (parseFlags [("--wipe_data".data)]) (fun _ => true)
        (fun r => decide (r ≠ dataRoot))).1 = [dataRoot, cacheRoot] ∧
      ((fun r => decide (r ≠ dataRoot)) dataRoot = false →
        (session_execute (parseFlags [("--wipe_data".data)]) (fun _ => true)
          (fun r => decide (r ≠ dataRoot))).2 = SessionStatus.error)) := by
  have h1 : ("--wipe_data".data) ∈ [("--wipe_data".data)] := List.mem_singleton.mpr rfl
  have h2 : (parseFlags [("--wipe_data".data)]).update_package = none := by decide
  exact ⟨⟨h1, h2⟩, wipe_data_erase_order_amended _ _ _ h1 h2⟩
